import Mathlib

set_option maxRecDepth 16384

/-!
Verification development for the HOTlab hologram-generation engine
(source/GenerateHologramCUDA.cu).  The host-side control flow of the four
exported entry points (GenerateHologram, Corrections, startCUDAandSLM,
stopCUDAandSLM, GetAmps) is embedded as pure functions over an explicit
session-state record.  Device float buffers are modelled as lists of
rationals (value flow only; floating-point rounding is not modelled),
device pointers that the source compares against NULL as Option values,
and the set of live device allocations as a multiset of buffer tags, so
that cudaMalloc / cudaFree / cudaDeviceReset have visible effects.
The CUDA kernels and the constants BLOCK_SIZE and SLM_SIZE live in
GenerateHologramCUDA.h, which is not part of the available sources; the
kernels are therefore abstracted as function parameters and the two
constants as explicit numeric parameters of the model.
-/

/-- Tags naming the device-side allocations made by the engine; the `live`
field of the state records one entry per outstanding cudaMalloc, so that
cudaFree (erase one occurrence) and cudaDeviceReset (clear) are observable. -/
inductive BufTag where
  | x | y | z | I | weights | amps | spotRe | spotIm
  | pSLM_f | pSLMstart_f | pSLM_uc | spot_index
  | FFTd | FFTo | SLM_cc | weights_start
  | LUT_uc | aberr | lutPol
  deriving DecidableEq

/-- Global session state of GenerateHologramCUDA.cu: the file-scope device
pointers, size globals and feature flags.  Device float arrays are carried
as their contents (List ℚ); the three optional buffers that the source
tests against NULL are carried as Option so that the NULL pointer is
representable.  `blockSize` stands for the compile-time constant BLOCK_SIZE
from the missing header. -/
structure SLMState where
  blockSize : Nat
  data_w : Nat
  N_pixels : Nat
  d_x : List ℚ
  d_y : List ℚ
  d_z : List ℚ
  d_I : List ℚ
  d_pSLM_f : List ℚ
  d_weights : List ℚ
  d_weights_start : List ℚ
  d_amps : List ℚ
  d_pSLMstart_f : List ℚ
  d_spotRe_f : List ℚ
  d_spotIm_f : List ℚ
  d_pSLM_uc : List Nat
  d_spot_index : List Int
  d_SLM_cc : List (ℚ × ℚ)
  d_FFTo_cc : List (ℚ × ℚ)
  d_FFTd_cc : List (ℚ × ℚ)
  d_LUT_uc : Option (List Nat)
  d_AberrationCorr_f : Option (List ℚ)
  d_LUTPolCoeff_f : Option (List ℚ)
  N_LUTPolCoeff : Nat
  ApplyLUT_b : Bool
  EnableSLM_b : Bool
  UseAberrationCorr_b : Bool
  UseLUTPol_b : Bool
  live : List BufTag

/-- State at program load: every global pointer is NULL / empty, every flag
false, matching the static initializers of the source file. -/
def initialState (blockSize : Nat) : SLMState where
  blockSize := blockSize
  data_w := 0
  N_pixels := 0
  d_x := []
  d_y := []
  d_z := []
  d_I := []
  d_pSLM_f := []
  d_weights := []
  d_weights_start := []
  d_amps := []
  d_pSLMstart_f := []
  d_spotRe_f := []
  d_spotIm_f := []
  d_pSLM_uc := []
  d_spot_index := []
  d_SLM_cc := []
  d_FFTo_cc := []
  d_FFTd_cc := []
  d_LUT_uc := none
  d_AberrationCorr_f := none
  d_LUTPolCoeff_f := none
  N_LUTPolCoeff := 0
  ApplyLUT_b := false
  EnableSLM_b := false
  UseAberrationCorr_b := false
  UseLUTPol_b := false
  live := []

/-- Model of cudaMemcpy of the first `n` elements of `src` into `dst`:
the destination keeps its tail beyond the copied prefix. -/
def copyN {α : Type} (src dst : List α) (n : Nat) : List α :=
  src.take n ++ dst.drop n

/-- Single-precision value of M_PI (the float nearest to pi), used by the
source in `alpha*2.0f*M_PI`; the rounding of the float product itself is
not modelled (the product only feeds the abstracted kernels). -/
def M_PI_f : ℚ := 13176795 / 4194304

/-- Modelled from the spec: the CUDA kernels (LensesAndPrisms,
checkAmplitudes, PropagateToSpotPositions_Fresnel, PropagateToSLM_Fresnel,
XYtoIndex, ReplaceAmpsSpots_FFT, ReplaceAmpsSLM_FFT, getPhases), the cuFFT
execution, and the float sqrtf are defined in GenerateHologramCUDA.h /
device code missing from the sources, so they are abstracted here as
arbitrary functions over the session state.  `ampAt` is the per-point body
of checkAmplitudes, which per spec section 4.3 is a pure function of one
query point and the phase pattern. -/
structure GHKernels where
  LensesAndPrisms : SLMState → List Nat
  ampAt : ℚ × ℚ × ℚ → List Nat → ℚ
  PropagateToSpotPositions_Fresnel : SLMState → SLMState
  PropagateToSLM_Fresnel : Nat → Bool → ℚ → SLMState → SLMState
  XYtoIndex : SLMState → List Int
  fft : List (ℚ × ℚ) → Bool → List (ℚ × ℚ)
  ReplaceAmpsSpots_FFT : Nat → ℚ → SLMState → SLMState
  ReplaceAmpsSLM_FFT : ℚ → SLMState → SLMState
  getPhases : SLMState → List Nat
  sqrtf : ℚ → ℚ

/-- Modelled from the spec: one checkAmplitudes dispatch over a batch of
query points evaluates the pure per-point amplitude function on each point
of the batch against the given pattern (spec section 4.3: no loop-carried
state, one independent block per point). -/
def checkAmplitudesRun (ampAt : ℚ × ℚ × ℚ → List Nat → ℚ)
    (pat : List Nat) (pts : List (ℚ × ℚ × ℚ)) : List ℚ :=
  pts.map (fun p => ampAt p pat)

/-- First `n` device-resident spot coordinate triples. -/
def spotPoints (s : SLMState) (n : Nat) : List (ℚ × ℚ × ℚ) :=
  (s.d_x.zip (s.d_y.zip s.d_z)).take n

/-- Lines 127-131 of GenerateHologram: upload the first `n` spot
coordinates and intensities to the device. -/
def uploadSpots (s : SLMState) (xs ys zs intensities : List ℚ) (n : Nat) : SLMState :=
  { s with
    d_x := copyN xs s.d_x n
    d_y := copyN ys s.d_y n
    d_z := copyN zs s.d_z n
    d_I := copyN intensities s.d_I n }

/-- Lines 150-151 of GenerateHologram (method 1): seed the working weight
buffer from d_weights_start and snapshot the phase field into
d_pSLMstart_f. -/
def fresnelSeed (s : SLMState) (n : Nat) : SLMState :=
  { s with
    d_weights := copyN s.d_weights_start s.d_weights n
    d_pSLMstart_f := copyN s.d_pSLM_f s.d_pSLMstart_f s.N_pixels }

/-- Lines 184-188 of GenerateHologram (method 2): overwrite the first
N_spots entries of the caller's weight array with the uniform weight
1/N_spots. -/
def fourierSeedHostWeights (h_weights : List ℚ) (N_spots : Nat) : List ℚ :=
  (List.range N_spots).foldl (fun h i => h.set i (1 / (N_spots : ℚ))) h_weights

/-- Observable result of one GenerateHologram call: final session state,
the two host output arrays, the number of iteration/synthesis passes the
selected branch executed, and the post-adjustment values of the local
variables `method` and `N_spots`. -/
structure GHResult where
  state : SLMState
  h_pSLM_uc : List Nat
  h_weights : List ℚ
  passes : Nat
  methodUsed : Nat
  spotsUsed : Nat

/-- Host control flow of GenerateHologram (lines 117-239): spot-count
truncation to BLOCK_SIZE, method override to 0 for fewer than 3 spots,
spot upload, and the three generation branches with their host-visible
copies.  Kernel dispatches are the abstract functions of `K`. -/
def GenerateHologram (K : GHKernels) (s0 : SLMState) (h_pSLM_uc : List Nat)
    (x_spots y_spots z_spots I_spots : List ℚ) (N_spots0 N_iterations : Nat)
    (h_weights : List ℚ) (alpha : ℚ) (method0 : Nat) : GHResult :=
  let alpha_RPC := alpha * 2 * M_PI_f
  let clamped : Nat × Nat :=
    if N_spots0 > s0.blockSize then (s0.blockSize, method0)
    else if N_spots0 < 3 then (N_spots0, 0)
    else (N_spots0, method0)
  let N_spots := clamped.1
  let method := clamped.2
  let s := uploadSpots s0 x_spots y_spots z_spots I_spots N_spots
  match method with
  | 0 =>
    let s := { s with d_pSLM_uc := K.LensesAndPrisms s }
    let amps := checkAmplitudesRun K.ampAt s.d_pSLM_uc (spotPoints s N_spots)
    let s := { s with d_amps := copyN amps s.d_amps N_spots }
    { state := s
      h_pSLM_uc := copyN s.d_pSLM_uc h_pSLM_uc s.N_pixels
      h_weights := copyN s.d_amps h_weights N_spots
      passes := 1
      methodUsed := 0
      spotsUsed := N_spots }
  | 1 =>
    let s := fresnelSeed s N_spots
    let s := (List.range N_iterations).foldl
      (fun st l =>
        K.PropagateToSLM_Fresnel l (l == N_iterations - 1) alpha_RPC
          (K.PropagateToSpotPositions_Fresnel st)) s
    { state := s
      h_pSLM_uc := copyN s.d_pSLM_uc h_pSLM_uc s.N_pixels
      h_weights := copyN s.d_amps h_weights (N_spots * N_iterations)
      passes := N_iterations
      methodUsed := 1
      spotsUsed := N_spots }
  | 2 =>
    let amp_desired := (s.N_pixels : ℚ) * K.sqrtf (1 / (N_spots : ℚ))
    let hw := fourierSeedHostWeights h_weights N_spots
    let s := { s with d_weights := copyN hw s.d_weights N_spots }
    let s := { s with d_FFTd_cc := List.replicate s.N_pixels ((0 : ℚ), (0 : ℚ)) }
    let s := { s with d_spot_index := copyN (K.XYtoIndex s) s.d_spot_index N_spots }
    let s := (List.range N_iterations).foldl
      (fun st l =>
        let st := { st with d_FFTo_cc := K.fft st.d_SLM_cc true }
        let st := K.ReplaceAmpsSpots_FFT l amp_desired st
        let st := { st with d_SLM_cc := K.fft st.d_FFTd_cc false }
        K.ReplaceAmpsSLM_FFT alpha_RPC st) s
    let s := { s with d_pSLM_uc := K.getPhases s }
    { state := s
      h_pSLM_uc := copyN s.d_pSLM_uc h_pSLM_uc s.N_pixels
      h_weights := copyN s.d_amps hw (N_spots * N_iterations)
      passes := N_iterations
      methodUsed := 2
      spotsUsed := N_spots }
  | _ =>
    { state := s
      h_pSLM_uc := h_pSLM_uc
      h_weights := h_weights
      passes := 0
      methodUsed := method
      spotsUsed := N_spots }

/-- Aberration-map branch of Corrections (lines 259-269): when enabled,
allocate the device map only if not already resident and attempt the host
upload, recording the upload result in the flag; when disabled, free any
resident map and reset its pointer to NULL.  `okAb` is the success of the
cudaMemcpy, `junkQ` fills freshly allocated (uninitialized) memory. -/
def aberrStep (s : SLMState) (h_AberrationCorr : List ℚ) (okAb : Bool) (junkQ : ℚ) : SLMState :=
  if s.UseAberrationCorr_b then
    let buf := match s.d_AberrationCorr_f with
      | none => List.replicate s.N_pixels junkQ
      | some b => b
    let liveNow := match s.d_AberrationCorr_f with
      | none => BufTag.aberr :: s.live
      | some _ => s.live
    let buf2 := if okAb then copyN h_AberrationCorr buf s.N_pixels else buf
    { s with d_AberrationCorr_f := some buf2, live := liveNow, UseAberrationCorr_b := okAb }
  else
    match s.d_AberrationCorr_f with
    | none => s
    | some _ => { s with d_AberrationCorr_f := none, live := s.live.erase BufTag.aberr }

/-- Polynomial-coefficient branch of Corrections (lines 270-280): same
shape as the aberration branch, with a fixed 120-float allocation and an
upload of N_LUTPolCoeff coefficients. -/
def polStep (s : SLMState) (h_LUTPolCoeff : List ℚ) (okPol : Bool) (junkQ : ℚ) : SLMState :=
  if s.UseLUTPol_b then
    let buf := match s.d_LUTPolCoeff_f with
      | none => List.replicate 120 junkQ
      | some b => b
    let liveNow := match s.d_LUTPolCoeff_f with
      | none => BufTag.lutPol :: s.live
      | some _ => s.live
    let buf2 := if okPol then copyN h_LUTPolCoeff buf s.N_LUTPolCoeff else buf
    { s with d_LUTPolCoeff_f := some buf2, live := liveNow, UseLUTPol_b := okPol }
  else
    match s.d_LUTPolCoeff_f with
    | none => s
    | some _ => { s with d_LUTPolCoeff_f := none, live := s.live.erase BufTag.lutPol }

/-- Corrections (lines 248-292): store the caller's three feature flags,
validate the polynomial order against [3,7] (out of range forces the
polynomial feature off; in range selects the coefficient count from
the table Ncoeff = 20/35/56/84/120), then run the aberration and
polynomial buffer branches.  The returned Nat is the CUDA status:
nonzero exactly when a performed upload failed (allocations are modelled
as succeeding). -/
def Corrections (s : SLMState) (UseAberrationCorr : Bool) (h_AberrationCorr : List ℚ)
    (ApplyLUT : Bool) (UseLUTPol : Bool) (PolOrder : Int) (h_LUTPolCoeff : List ℚ)
    (okAb okPol : Bool) (junkQ : ℚ) : SLMState × Nat :=
  let s := { s with
    UseAberrationCorr_b := UseAberrationCorr
    ApplyLUT_b := ApplyLUT
    UseLUTPol_b := UseLUTPol }
  let s :=
    if 3 ≤ PolOrder ∧ PolOrder ≤ 7 then
      { s with N_LUTPolCoeff := ([20, 35, 56, 84, 120].getD (PolOrder - 3).toNat 0) }
    else
      { s with UseLUTPol_b := false }
  let errAb := s.UseAberrationCorr_b && !okAb
  let errPol := s.UseLUTPol_b && !okPol
  let s := aberrStep s h_AberrationCorr okAb junkQ
  let s := polStep s h_LUTPolCoeff okPol junkQ
  (s, if errAb || errPol then 1 else 0)

/-- startCUDAandSLM (lines 297-373): set the grid geometry from SLM_SIZE
(passed as `slmSize` since the header is missing), allocate every device
buffer at its fixed capacity (MaxIterations = 1000, MaxSpots = BLOCK_SIZE),
zero the phase field, fill d_weights_start with 1.0 for BLOCK_SIZE spots,
and, when hardware output is enabled, apply the LUT decision returned by
InitalizeSLM (`usesPCI`) and upload the 256-entry LUT.  `junkQ`/`junkU`
stand for uninitialized memory contents. -/
def startCUDAandSLM (s : SLMState) (EnableSLM : Bool) (slmSize : Nat)
    (usesPCI : Bool) (h_LUT_hw : List Nat) (junkQ : ℚ) (junkU : Nat) : SLMState :=
  let MaxIterations := 1000
  let MaxSpots := s.blockSize
  let dataW := slmSize
  let nPix := dataW * dataW
  let h_weights := (List.range s.blockSize).foldl
    (fun h i => h.set i (1 : ℚ)) (List.replicate 10000 junkQ)
  let s := { s with
    data_w := dataW
    N_pixels := nPix
    d_x := List.replicate s.blockSize junkQ
    d_y := List.replicate s.blockSize junkQ
    d_z := List.replicate s.blockSize junkQ
    d_I := List.replicate s.blockSize junkQ
    d_weights := List.replicate (s.blockSize * (MaxIterations + 1)) junkQ
    d_amps := List.replicate (s.blockSize * MaxIterations) junkQ
    d_spotRe_f := List.replicate s.blockSize junkQ
    d_spotIm_f := List.replicate s.blockSize junkQ
    d_pSLM_f := List.replicate nPix 0
    d_pSLMstart_f := List.replicate nPix junkQ
    d_pSLM_uc := List.replicate nPix junkU
    d_spot_index := List.replicate s.blockSize 0
    d_SLM_cc := List.replicate nPix (junkQ, junkQ)
    d_FFTo_cc := List.replicate nPix (junkQ, junkQ)
    d_FFTd_cc := List.replicate nPix (junkQ, junkQ)
    d_weights_start := copyN h_weights (List.replicate MaxSpots junkQ) MaxSpots
    live := [BufTag.x, BufTag.y, BufTag.z, BufTag.I, BufTag.weights, BufTag.amps,
             BufTag.spotRe, BufTag.spotIm, BufTag.pSLM_f, BufTag.pSLMstart_f,
             BufTag.pSLM_uc, BufTag.spot_index, BufTag.FFTd, BufTag.FFTo,
             BufTag.SLM_cc, BufTag.weights_start] ++ s.live
    EnableSLM_b := EnableSLM }
  if EnableSLM then
    { s with
      ApplyLUT_b := usesPCI
      d_LUT_uc := some (copyN h_LUT_hw (List.replicate 256 junkU) 256)
      live := BufTag.LUT_uc :: s.live }
  else
    { s with ApplyLUT_b := false }

/-- Explicit cudaFree calls of stopCUDAandSLM (lines 377-409): the twelve
unconditionally freed buffers, then the LUT, aberration and polynomial
buffers, each freed and its pointer reset to NULL only when the
corresponding feature flag is set. -/
def stopFrees (s : SLMState) : SLMState :=
  let liveNow := [BufTag.x, BufTag.y, BufTag.z, BufTag.I, BufTag.weights, BufTag.amps,
                  BufTag.pSLM_f, BufTag.pSLMstart_f, BufTag.pSLM_uc,
                  BufTag.FFTd, BufTag.FFTo, BufTag.SLM_cc].foldl
    (fun acc t => acc.erase t) s.live
  let s := { s with live := liveNow }
  let s := if s.ApplyLUT_b then
      { s with live := s.live.erase BufTag.LUT_uc, d_LUT_uc := none }
    else s
  let s := if s.UseAberrationCorr_b then
      { s with live := s.live.erase BufTag.aberr, d_AberrationCorr_f := none }
    else s
  if s.UseLUTPol_b then
    { s with live := s.live.erase BufTag.lutPol, d_LUTPolCoeff_f := none }
  else s

/-- stopCUDAandSLM (lines 375-428): the explicit frees followed by
cudaDeviceReset, which destroys every remaining device allocation (but
leaves the host-visible pointer variables untouched). -/
def stopCUDAandSLM (s : SLMState) : SLMState :=
  { stopFrees s with live := [] }

/-- Slice write of one checkAmplitudes batch inside GetAmps: the batch
result lands at its own offset of the output array. -/
def writeSlice (out res : List ℚ) (off : Nat) : List ℚ :=
  out.take off ++ res ++ out.drop (off + res.length)

/-- Batching loop of GetAmps (lines 448-457): while points remain, process
min(remaining, 512) points starting at the running offset and advance both
counters by 512. -/
def getAmpsLoop (ampAt : ℚ × ℚ × ℚ → List Nat → ℚ) (pat : List Nat)
    (pts : List (ℚ × ℚ × ℚ)) (rem offset : Nat) (out : List ℚ) : List ℚ :=
  if h : 0 < rem then
    let n := if rem > 512 then 512 else rem
    let res := checkAmplitudesRun ampAt pat ((pts.drop offset).take n)
    getAmpsLoop ampAt pat pts (rem - 512) (offset + 512) (writeSlice out res offset)
  else out
termination_by rem
decreasing_by exact Nat.sub_lt h (by decide)

/-- GetAmps (lines 432-474): upload the query points and the pattern,
run the batching loop over a freshly allocated (uninitialized) output
array, and copy the amplitudes back to the host.  The temporary device
arrays are freed before returning and are not part of the result. -/
def GetAmps (ampAt : ℚ × ℚ × ℚ → List Nat → ℚ) (s : SLMState)
    (x_spots y_spots z_spots : List ℚ) (h_pSLM_uc : List Nat)
    (N_spots_all : Nat) (dataW : Nat) (junkQ : ℚ) : List ℚ × SLMState :=
  let d_xall := x_spots.take N_spots_all
  let d_yall := y_spots.take N_spots_all
  let d_zall := z_spots.take N_spots_all
  let d_amps_all := List.replicate N_spots_all junkQ
  let s := { s with d_pSLM_uc := copyN h_pSLM_uc s.d_pSLM_uc s.N_pixels }
  let pts := d_xall.zip (d_yall.zip d_zall)
  let amps := getAmpsLoop ampAt s.d_pSLM_uc pts N_spots_all 0 d_amps_all
  (amps.take N_spots_all, s)

/-- Kernel instantiation with inert kernels, used to evaluate the host
control flow on concrete inputs. -/
def trivialKernels : GHKernels where
  LensesAndPrisms := fun _ => []
  ampAt := fun _ _ => 0
  PropagateToSpotPositions_Fresnel := fun s => s
  PropagateToSLM_Fresnel := fun _ _ _ s => s
  XYtoIndex := fun _ => []
  fft := fun c _ => c
  ReplaceAmpsSpots_FFT := fun _ _ s => s
  ReplaceAmpsSLM_FFT := fun _ s => s
  getPhases := fun _ => []
  sqrtf := fun _ => 0

theorem copyN_take {α : Type} (src dst : List α) (n : Nat) (h : n ≤ src.length) :
    (copyN src dst n).take n = src.take n := by
  unfold copyN
  rw [List.take_append_eq_append_take]
  have h1 : (src.take n).length = n := by simp; omega
  simp [h1, List.take_take]

theorem copyN_length {α : Type} (src dst : List α) (n : Nat)
    (hs : n ≤ src.length) (hd : n ≤ dst.length) :
    (copyN src dst n).length = dst.length := by
  unfold copyN
  simp
  omega

theorem foldl_set_range {α : Type} (w : α) :
    ∀ (n : Nat) (h : List α), n ≤ h.length →
      (List.range n).foldl (fun acc i => acc.set i w) h
        = List.replicate n w ++ h.drop n := by
  intro n
  induction n with
  | zero => intro h _; simp
  | succ n ih =>
    intro h hn
    rw [List.range_succ, List.foldl_append, ih h (by omega)]
    simp only [List.foldl_cons, List.foldl_nil]
    have hd : h.drop n = h.get ⟨n, by omega⟩ :: h.drop (n + 1) :=
      List.drop_eq_getElem_cons (by omega)
    rw [hd, List.set_append_right _ _ (by simp)]
    simp [List.replicate_succ', List.append_assoc]
    rw [hd, List.set_cons_zero]

theorem checkAmplitudesRun_length (ampAt : ℚ × ℚ × ℚ → List Nat → ℚ)
    (pat : List Nat) (pts : List (ℚ × ℚ × ℚ)) :
    (checkAmplitudesRun ampAt pat pts).length = pts.length := by
  simp [checkAmplitudesRun]

theorem checkAmplitudesRun_split (ampAt : ℚ × ℚ × ℚ → List Nat → ℚ)
    (pat : List Nat) (pts : List (ℚ × ℚ × ℚ)) (n : Nat) :
    checkAmplitudesRun ampAt pat (pts.take n) ++ checkAmplitudesRun ampAt pat (pts.drop n)
      = checkAmplitudesRun ampAt pat pts := by
  rw [checkAmplitudesRun, checkAmplitudesRun, checkAmplitudesRun, ← List.map_append,
    List.take_append_drop]

theorem getAmpsLoop_eq (ampAt : ℚ × ℚ × ℚ → List Nat → ℚ) (pat : List Nat)
    (pts : List (ℚ × ℚ × ℚ)) :
    ∀ (rem offset : Nat) (out : List ℚ),
      offset + rem = pts.length → out.length = pts.length →
      getAmpsLoop ampAt pat pts rem offset out
        = out.take offset ++ checkAmplitudesRun ampAt pat (pts.drop offset) := by
  intro rem
  induction rem using Nat.strong_induction_on with
  | _ rem ih =>
    intro offset out hsum hlen
    rw [getAmpsLoop]
    by_cases hpos : 0 < rem
    · rw [dif_pos hpos]
      by_cases h512 : rem > 512
      · rw [if_pos h512]
        have hres : (checkAmplitudesRun ampAt pat ((pts.drop offset).take 512)).length = 512 := by
          rw [checkAmplitudesRun_length]
          simp
          omega
        have hws : (writeSlice out (checkAmplitudesRun ampAt pat ((pts.drop offset).take 512)) offset).length
            = pts.length := by
          simp [writeSlice, hres]
          omega
        rw [ih (rem - 512) (by omega) (offset + 512) _ (by omega) hws]
        have htl : (writeSlice out (checkAmplitudesRun ampAt pat ((pts.drop offset).take 512)) offset).take (offset + 512)
            = out.take offset ++ checkAmplitudesRun ampAt pat ((pts.drop offset).take 512) := by
          unfold writeSlice
          refine List.take_left' ?_
          simp [hres]
          omega
        rw [htl, List.append_assoc]
        congr 1
        have hdd : pts.drop (offset + 512) = (pts.drop offset).drop 512 := by
          rw [List.drop_drop]
        rw [hdd, checkAmplitudesRun_split]
      · simp only [if_neg h512]
        have hfull : (pts.drop offset).take rem = pts.drop offset := by
          refine List.take_of_length_le ?_
          simp
          omega
        have hres : (checkAmplitudesRun ampAt pat (pts.drop offset)).length = pts.length - offset := by
          rw [checkAmplitudesRun_length]
          simp
        simp only [hfull]
        rw [getAmpsLoop]
        rw [dif_neg (by omega : ¬ 0 < rem - 512)]
        unfold writeSlice
        rw [hres]
        have hdrop : List.drop (offset + (pts.length - offset)) out = [] :=
          List.drop_of_length_le (by omega)
        rw [hdrop, List.append_nil]
    · rw [dif_neg hpos]
      have hoff : pts.length ≤ offset := by omega
      rw [List.drop_of_length_le hoff]
      rw [checkAmplitudesRun, List.map_nil, List.append_nil]
      rw [List.take_of_length_le (by omega)]

theorem startCUDAandSLM_weights_start (s : SLMState) (en : Bool) (slm : Nat)
    (pci : Bool) (lut : List Nat) (jq : ℚ) (ju : Nat) (hbs : s.blockSize ≤ 10000) :
    (startCUDAandSLM s en slm pci lut jq ju).d_weights_start
      = List.replicate s.blockSize (1 : ℚ) := by
  have hfold : (List.range s.blockSize).foldl (fun acc i => acc.set i (1 : ℚ))
      (List.replicate 10000 jq)
      = List.replicate s.blockSize (1 : ℚ) ++ (List.replicate 10000 jq).drop s.blockSize :=
    foldl_set_range 1 s.blockSize (List.replicate 10000 jq)
      (by rw [List.length_replicate]; exact hbs)
  have hcopy : copyN ((List.range s.blockSize).foldl (fun acc i => acc.set i (1 : ℚ))
        (List.replicate 10000 jq)) (List.replicate s.blockSize jq) s.blockSize
      = List.replicate s.blockSize (1 : ℚ) := by
    rw [hfold]
    unfold copyN
    rw [List.take_left' (by simp), List.drop_replicate]
    simp
  unfold startCUDAandSLM
  cases en
  · rw [if_neg (by simp)]
    exact hcopy
  · rw [if_pos rfl]
    exact hcopy

/-- Concrete session used to evaluate the model: BLOCK_SIZE 3, SLM_SIZE 2,
hardware output disabled, uninitialized memory filled with zeros. -/
def testSession : SLMState :=
  startCUDAandSLM (initialState 3) false 2 false (List.replicate 256 0) 0 0

/-- Concrete session started with hardware output enabled on PCIe hardware:
InitalizeSLM returned 0, so ApplyLUT_b is false although the 256-entry LUT
buffer was allocated and uploaded. -/
def testSessionLUT : SLMState :=
  startCUDAandSLM (initialState 3) true 2 false (List.replicate 256 0) 0 0

/-- C1 (amended): a spot count above the capacity BLOCK_SIZE is truncated to
BLOCK_SIZE, so the computation uses only the first BLOCK_SIZE spots, but in
that branch the method selector keeps the caller's value; the override to
direct superposition (method 0) happens exactly when the spot count is at
most BLOCK_SIZE and less than 3. -/
theorem GenerateHologram_spot_truncation (K : GHKernels) (s0 : SLMState)
    (hp : List Nat) (x y z intens w : List ℚ) (N0 Nit : Nat) (a : ℚ) (m0 : Nat) :
    (s0.blockSize < N0 →
        (GenerateHologram K s0 hp x y z intens N0 Nit w a m0).spotsUsed = s0.blockSize
      ∧ (GenerateHologram K s0 hp x y z intens N0 Nit w a m0).methodUsed = m0)
    ∧ (N0 ≤ s0.blockSize → N0 < 3 →
        (GenerateHologram K s0 hp x y z intens N0 Nit w a m0).methodUsed = 0
      ∧ (GenerateHologram K s0 hp x y z intens N0 Nit w a m0).spotsUsed = N0) := by
  constructor
  · intro h
    have hif : (if N0 > s0.blockSize then (s0.blockSize, m0)
        else if N0 < 3 then (N0, 0) else (N0, m0)) = (s0.blockSize, m0) := if_pos h
    unfold GenerateHologram
    rw [hif]
    match m0 with
    | 0 => exact ⟨rfl, rfl⟩
    | 1 => exact ⟨rfl, rfl⟩
    | 2 => exact ⟨rfl, rfl⟩
    | n + 3 => exact ⟨rfl, rfl⟩
  · intro hle hlt
    have hif : (if N0 > s0.blockSize then (s0.blockSize, m0)
        else if N0 < 3 then (N0, 0) else (N0, m0)) = (N0, 0) := by
      rw [if_neg (by omega), if_pos hlt]
    unfold GenerateHologram
    rw [hif]
    exact ⟨rfl, rfl⟩

/-- C1 counterexample: in a session with capacity BLOCK_SIZE = 3, calling
GenerateHologram with 4 spots and method 2 truncates the spot count but
leaves the method selector at 2 — it is not overridden to 0 as the claim
states for the over-capacity case. -/
theorem GenerateHologram_overflow_keeps_method :
    (GenerateHologram trivialKernels testSession [] [0, 0, 0, 0] [0, 0, 0, 0]
        [0, 0, 0, 0] [1, 1, 1, 1] 4 0 [1, 1, 1, 1] 0 2).methodUsed = 2
    ∧ (GenerateHologram trivialKernels testSession [] [0, 0, 0, 0] [0, 0, 0, 0]
        [0, 0, 0, 0] [1, 1, 1, 1] 4 0 [1, 1, 1, 1] 0 2).methodUsed ≠ 0
    ∧ 4 > testSession.blockSize := by
  refine ⟨by decide, by decide, by decide⟩

/-- C1 witness: concrete instantiation of the amended truncation theorem. -/
theorem GenerateHologram_spot_truncation_witness :
    testSession.blockSize < 4
    ∧ (GenerateHologram trivialKernels testSession [] [0, 0, 0, 0] [0, 0, 0, 0]
        [0, 0, 0, 0] [1, 1, 1, 1] 4 0 [1, 1, 1, 1] 0 2).spotsUsed = testSession.blockSize :=
  ⟨by decide,
    ((GenerateHologram_spot_truncation trivialKernels testSession [] [0, 0, 0, 0]
      [0, 0, 0, 0] [0, 0, 0, 0] [1, 1, 1, 1] [1, 1, 1, 1] 4 0 0 2).1 (by decide)).1⟩

/-- C4 (amended): the iteration count is not clamped: both iterative
branches run exactly the caller-supplied number of iterations, even above
the configured maximum MaxIterations = 1000 used to size the history
buffers; only the spot count is truncated to its maximum. -/
theorem GenerateHologram_iterations_not_clamped (K : GHKernels) (s0 : SLMState)
    (hp : List Nat) (x y z intens w : List ℚ) (N0 Nit : Nat) (a : ℚ) (m0 : Nat) :
    (3 ≤ N0 → N0 ≤ s0.blockSize → m0 = 1 ∨ m0 = 2 →
      (GenerateHologram K s0 hp x y z intens N0 Nit w a m0).passes = Nit)
    ∧ (s0.blockSize < N0 →
      (GenerateHologram K s0 hp x y z intens N0 Nit w a m0).spotsUsed = s0.blockSize) := by
  constructor
  · intro h3 hle hm
    have hif : (if N0 > s0.blockSize then (s0.blockSize, m0)
        else if N0 < 3 then (N0, 0) else (N0, m0)) = (N0, m0) := by
      rw [if_neg (by omega), if_neg (by omega)]
    unfold GenerateHologram
    rw [hif]
    rcases hm with hm | hm <;> subst hm <;> rfl
  · intro h
    have hif : (if N0 > s0.blockSize then (s0.blockSize, m0)
        else if N0 < 3 then (N0, 0) else (N0, m0)) = (s0.blockSize, m0) := if_pos h
    unfold GenerateHologram
    rw [hif]
    match m0 with
    | 0 => rfl
    | 1 => rfl
    | 2 => rfl
    | n + 3 => rfl

/-- C4 counterexample: with the configured maximum of 1000 iterations,
a request for 1001 iterations runs 1001 passes — the iteration count is
not truncated to the maximum. -/
theorem GenerateHologram_iterations_exceed_max :
    (GenerateHologram trivialKernels testSession [] [0, 0, 0] [0, 0, 0] [0, 0, 0]
        [1, 1, 1] 3 1001 [1, 1, 1] 0 1).passes = 1001
    ∧ ¬ (1001 ≤ 1000) := by
  refine ⟨by decide, by decide⟩

/-- C4 witness: concrete instantiation of the no-clamping theorem. -/
theorem GenerateHologram_iterations_not_clamped_witness :
    (3 ≤ 3 ∧ 3 ≤ testSession.blockSize)
    ∧ (GenerateHologram trivialKernels testSession [] [0, 0, 0] [0, 0, 0] [0, 0, 0]
        [1, 1, 1] 3 1001 [1, 1, 1] 0 1).passes = 1001 :=
  ⟨⟨by decide, by decide⟩,
    (GenerateHologram_iterations_not_clamped trivialKernels testSession [] [0, 0, 0]
      [0, 0, 0] [0, 0, 0] [1, 1, 1] [1, 1, 1] 3 1001 0 1).1 (by decide) (by decide)
      (Or.inl rfl)⟩

/-- C8: for a spot set of 1 or 2 entries the method selector is forced to
direct superposition whatever the caller requested, exactly one synthesis
pass runs (no iteration), and the caller's weight array receives exactly
N_spots amplitude values obtained by evaluating the synthesized pattern. -/
theorem GenerateHologram_small_spot_direct (K : GHKernels) (s0 : SLMState)
    (hp : List Nat) (x y z intens w : List ℚ) (N0 Nit : Nat) (a : ℚ) (m0 : Nat)
    (hn : N0 = 1 ∨ N0 = 2) (hbs : 3 ≤ s0.blockSize)
    (hx : N0 ≤ x.length) (hy : N0 ≤ y.length) (hz : N0 ≤ z.length) :
    (GenerateHologram K s0 hp x y z intens N0 Nit w a m0).methodUsed = 0
    ∧ (GenerateHologram K s0 hp x y z intens N0 Nit w a m0).passes = 1
    ∧ (GenerateHologram K s0 hp x y z intens N0 Nit w a m0).h_weights
        = checkAmplitudesRun K.ampAt
            (K.LensesAndPrisms (uploadSpots s0 x y z intens N0))
            (spotPoints (uploadSpots s0 x y z intens N0) N0)
          ++ w.drop N0
    ∧ (checkAmplitudesRun K.ampAt
          (K.LensesAndPrisms (uploadSpots s0 x y z intens N0))
          (spotPoints (uploadSpots s0 x y z intens N0) N0)).length = N0 := by
  have h3 : N0 < 3 := by rcases hn with h | h <;> omega
  have hif : (if N0 > s0.blockSize then (s0.blockSize, m0)
      else if N0 < 3 then (N0, 0) else (N0, m0)) = (N0, 0) := by
    rw [if_neg (by omega), if_pos h3]
  have hsp : (spotPoints (uploadSpots s0 x y z intens N0) N0).length = N0 := by
    unfold spotPoints uploadSpots copyN
    simp
    omega
  have hA : (checkAmplitudesRun K.ampAt
      (K.LensesAndPrisms (uploadSpots s0 x y z intens N0))
      (spotPoints (uploadSpots s0 x y z intens N0) N0)).length = N0 := by
    rw [checkAmplitudesRun_length]
    exact hsp
  unfold GenerateHologram
  rw [hif]
  refine ⟨rfl, rfl, ?_, hA⟩
  show (copyN (copyN (checkAmplitudesRun K.ampAt
      (K.LensesAndPrisms (uploadSpots s0 x y z intens N0))
      (spotPoints (uploadSpots s0 x y z intens N0) N0))
      (uploadSpots s0 x y z intens N0).d_amps N0) w N0)
    = checkAmplitudesRun K.ampAt
        (K.LensesAndPrisms (uploadSpots s0 x y z intens N0))
        (spotPoints (uploadSpots s0 x y z intens N0) N0)
      ++ w.drop N0
  unfold copyN
  congr 1
  rw [List.take_append_eq_append_take, List.take_take, Nat.min_self,
    List.take_of_length_le hA.le, hA, Nat.sub_self, List.take_zero, List.append_nil]

/-- C8 witness: one spot, requested method 2: forced to 0 with one pass. -/
theorem GenerateHologram_small_spot_direct_witness :
    ((1 : Nat) = 1 ∨ (1 : Nat) = 2)
    ∧ (GenerateHologram trivialKernels testSession [] [0] [0] [0] [1] 1 5
        [7, 7] 0 2).methodUsed = 0
    ∧ (GenerateHologram trivialKernels testSession [] [0] [0] [0] [1] 1 5
        [7, 7] 0 2).passes = 1 :=
  ⟨Or.inl rfl,
    (GenerateHologram_small_spot_direct trivialKernels testSession [] [0] [0] [0] [1]
      [7, 7] 1 5 0 2 (Or.inl rfl) (by decide) (by decide) (by decide) (by decide)).1,
    (GenerateHologram_small_spot_direct trivialKernels testSession [] [0] [0] [0] [1]
      [7, 7] 1 5 0 2 (Or.inl rfl) (by decide) (by decide) (by decide) (by decide)).2.1⟩

/-- C5: the Fourier branch (method 2) seeds every working weight with the
uniform value 1/N_spots; the result is independent of the caller-supplied
weight values, which are overwritten before the upload. -/
theorem GenerateHologram_fourier_uniform_seed (K : GHKernels) (s0 : SLMState)
    (hp : List Nat) (x y z intens w : List ℚ) (N0 : Nat) (a : ℚ)
    (h3 : 3 ≤ N0) (hbs : N0 ≤ s0.blockSize) (hw : N0 ≤ w.length) :
    (fourierSeedHostWeights w N0).take N0 = List.replicate N0 (1 / (N0 : ℚ))
    ∧ (GenerateHologram K s0 hp x y z intens N0 0 w a 2).state.d_weights.take N0
        = List.replicate N0 (1 / (N0 : ℚ)) := by
  have hseed : fourierSeedHostWeights w N0
      = List.replicate N0 (1 / (N0 : ℚ)) ++ w.drop N0 := by
    unfold fourierSeedHostWeights
    exact foldl_set_range (1 / (N0 : ℚ)) N0 w hw
  have htake : (fourierSeedHostWeights w N0).take N0
      = List.replicate N0 (1 / (N0 : ℚ)) := by
    rw [hseed]
    exact List.take_left' (by simp)
  refine ⟨htake, ?_⟩
  have hif : (if N0 > s0.blockSize then (s0.blockSize, (2 : Nat))
      else if N0 < 3 then (N0, 0) else (N0, 2)) = (N0, 2) := by
    rw [if_neg (by omega), if_neg (by omega)]
  unfold GenerateHologram
  rw [hif]
  show (copyN (fourierSeedHostWeights w N0)
      (uploadSpots s0 x y z intens N0).d_weights N0).take N0
    = List.replicate N0 (1 / (N0 : ℚ))
  rw [copyN_take _ _ _ (by rw [hseed]; simp), htake]

/-- C5 witness: three spots with caller weights 5: the seeded weights are
uniformly 1/3. -/
theorem GenerateHologram_fourier_uniform_seed_witness :
    (3 ≤ (3 : Nat))
    ∧ (GenerateHologram trivialKernels testSession [] [0, 0, 0] [0, 0, 0] [0, 0, 0]
        [1, 1, 1] 3 0 [5, 5, 5] 0 2).state.d_weights.take 3
      = List.replicate 3 (1 / (3 : ℚ)) :=
  ⟨by decide,
    (GenerateHologram_fourier_uniform_seed trivialKernels testSession [] [0, 0, 0]
      [0, 0, 0] [0, 0, 0] [1, 1, 1] [5, 5, 5] 3 0 (by decide) (by decide) (by decide)).2⟩

/-- C2 (amended): the Fresnel branch (method 1) proceeds from a state in
which the working weight buffer was seeded from the session's
d_weights_start buffer — which startCUDAandSLM fills with the constant
1.0, not with the caller's weight argument — and the current phase field
was snapshotted into the reference field d_pSLMstart_f. -/
theorem GenerateHologram_fresnel_seed (K : GHKernels) (sp : SLMState) (en : Bool)
    (slm : Nat) (pci : Bool) (lut : List Nat) (jq : ℚ) (ju : Nat)
    (hp : List Nat) (x y z intens w : List ℚ) (N0 Nit : Nat) (a : ℚ)
    (h3 : 3 ≤ N0) (hbs : N0 ≤ sp.blockSize) (hmax : sp.blockSize ≤ 10000) :
    ((GenerateHologram K (startCUDAandSLM sp en slm pci lut jq ju) hp x y z intens
        N0 Nit w a 1).state
      = (List.range Nit).foldl
          (fun st l => K.PropagateToSLM_Fresnel l (l == Nit - 1) (a * 2 * M_PI_f)
            (K.PropagateToSpotPositions_Fresnel st))
          (fresnelSeed (uploadSpots (startCUDAandSLM sp en slm pci lut jq ju)
            x y z intens N0) N0))
    ∧ (fresnelSeed (uploadSpots (startCUDAandSLM sp en slm pci lut jq ju)
          x y z intens N0) N0).d_weights.take N0
        = List.replicate N0 (1 : ℚ)
    ∧ (fresnelSeed (uploadSpots (startCUDAandSLM sp en slm pci lut jq ju)
          x y z intens N0) N0).d_pSLMstart_f
        = copyN (startCUDAandSLM sp en slm pci lut jq ju).d_pSLM_f
            (startCUDAandSLM sp en slm pci lut jq ju).d_pSLMstart_f
            (startCUDAandSLM sp en slm pci lut jq ju).N_pixels := by
  refine ⟨?_, ?_, rfl⟩
  · have hif : (if N0 > (startCUDAandSLM sp en slm pci lut jq ju).blockSize
        then ((startCUDAandSLM sp en slm pci lut jq ju).blockSize, (1 : Nat))
        else if N0 < 3 then (N0, 0) else (N0, 1)) = (N0, 1) := by
      have hbs2 : (startCUDAandSLM sp en slm pci lut jq ju).blockSize = sp.blockSize := by
        unfold startCUDAandSLM
        cases en
        · rw [if_neg (by simp)]
        · rw [if_pos rfl]
      rw [hbs2, if_neg (by omega), if_neg (by omega)]
    unfold GenerateHologram
    rw [hif]
    rfl
  · show (copyN (uploadSpots (startCUDAandSLM sp en slm pci lut jq ju)
        x y z intens N0).d_weights_start
        (uploadSpots (startCUDAandSLM sp en slm pci lut jq ju) x y z intens N0).d_weights
        N0).take N0 = List.replicate N0 (1 : ℚ)
    have hws : (uploadSpots (startCUDAandSLM sp en slm pci lut jq ju)
        x y z intens N0).d_weights_start = List.replicate sp.blockSize (1 : ℚ) :=
      startCUDAandSLM_weights_start sp en slm pci lut jq ju hmax
    rw [copyN_take _ _ _ (by rw [hws]; simp; omega), hws, List.take_replicate,
      Nat.min_eq_left hbs]

/-- C2 counterexample: in a freshly started session, a Fresnel-path call
with caller weights all 2 leaves the working weight buffer seeded with the
value 1.0 coming from d_weights_start; the caller-provided starting
weights are not copied into the working weight buffer. -/
theorem GenerateHologram_fresnel_seed_not_caller :
    ((GenerateHologram trivialKernels testSession [] [0, 0, 0] [0, 0, 0] [0, 0, 0]
        [1, 1, 1] 3 0 [2, 2, 2] 0 1).state.d_weights.take 3 = [1, 1, 1])
    ∧ ([1, 1, 1] : List ℚ) ≠ [2, 2, 2] := by
  refine ⟨by decide, by decide⟩

/-- C2 witness: concrete instantiation of the amended seeding theorem. -/
theorem GenerateHologram_fresnel_seed_witness :
    ((3 : Nat) ≤ 3)
    ∧ (fresnelSeed (uploadSpots (startCUDAandSLM (initialState 3) false 2 false
        (List.replicate 256 0) 0 0) [0, 0, 0] [0, 0, 0] [0, 0, 0] [1, 1, 1] 3)
        3).d_weights.take 3 = List.replicate 3 (1 : ℚ) :=
  ⟨by decide,
    (GenerateHologram_fresnel_seed trivialKernels (initialState 3) false 2 false
      (List.replicate 256 0) 0 0 [] [0, 0, 0] [0, 0, 0] [0, 0, 0] [1, 1, 1] [2, 2, 2]
      3 5 0 (by decide) (by decide) (by decide)).2.1⟩

theorem stopFrees_count (s : SLMState) (t : BufTag)
    (e1 : t ≠ BufTag.x) (e2 : t ≠ BufTag.y) (e3 : t ≠ BufTag.z) (e4 : t ≠ BufTag.I)
    (e5 : t ≠ BufTag.weights) (e6 : t ≠ BufTag.amps) (e7 : t ≠ BufTag.pSLM_f)
    (e8 : t ≠ BufTag.pSLMstart_f) (e9 : t ≠ BufTag.pSLM_uc) (e10 : t ≠ BufTag.FFTd)
    (e11 : t ≠ BufTag.FFTo) (e12 : t ≠ BufTag.SLM_cc)
    (h2 : t ≠ BufTag.LUT_uc) (h3 : t ≠ BufTag.aberr) (h4 : t ≠ BufTag.lutPol) :
    (stopFrees s).live.count t = s.live.count t := by
  unfold stopFrees
  cases hA : s.ApplyLUT_b <;> cases hB : s.UseAberrationCorr_b <;>
    cases hC : s.UseLUTPol_b <;>
    simp [hA, hB, hC, List.count_erase_of_ne e1, List.count_erase_of_ne e2,
      List.count_erase_of_ne e3, List.count_erase_of_ne e4, List.count_erase_of_ne e5,
      List.count_erase_of_ne e6, List.count_erase_of_ne e7, List.count_erase_of_ne e8,
      List.count_erase_of_ne e9, List.count_erase_of_ne e10, List.count_erase_of_ne e11,
      List.count_erase_of_ne e12, List.count_erase_of_ne h2, List.count_erase_of_ne h3,
      List.count_erase_of_ne h4]

/-- C3 (amended): after stopCUDAandSLM the live-allocation multiset is empty
— but only because the final cudaDeviceReset destroys everything: the
explicit cudaFree calls never free the spot Re/Im buffers, the spot-index
buffer or the start-weight buffer, and each optional pointer (LUT,
aberration map, polynomial table) is freed and reset to NULL only when its
enable flag is set; with the flag clear its pointer is left untouched even
if the buffer is resident. -/
theorem stopCUDAandSLM_release (s : SLMState) :
    (stopCUDAandSLM s).live = []
    ∧ (s.ApplyLUT_b = true → (stopCUDAandSLM s).d_LUT_uc = none)
    ∧ (s.UseAberrationCorr_b = true → (stopCUDAandSLM s).d_AberrationCorr_f = none)
    ∧ (s.UseLUTPol_b = true → (stopCUDAandSLM s).d_LUTPolCoeff_f = none)
    ∧ (s.ApplyLUT_b = false → (stopCUDAandSLM s).d_LUT_uc = s.d_LUT_uc)
    ∧ (s.UseAberrationCorr_b = false →
        (stopCUDAandSLM s).d_AberrationCorr_f = s.d_AberrationCorr_f)
    ∧ (s.UseLUTPol_b = false → (stopCUDAandSLM s).d_LUTPolCoeff_f = s.d_LUTPolCoeff_f)
    ∧ (stopFrees s).live.count BufTag.weights_start = s.live.count BufTag.weights_start
    ∧ (stopFrees s).live.count BufTag.spotRe = s.live.count BufTag.spotRe
    ∧ (stopFrees s).live.count BufTag.spotIm = s.live.count BufTag.spotIm
    ∧ (stopFrees s).live.count BufTag.spot_index = s.live.count BufTag.spot_index := by
  refine ⟨rfl, ?_, ?_, ?_, ?_, ?_, ?_,
    stopFrees_count s _ (by decide) (by decide) (by decide) (by decide) (by decide)
      (by decide) (by decide) (by decide) (by decide) (by decide) (by decide)
      (by decide) (by decide) (by decide) (by decide),
    stopFrees_count s _ (by decide) (by decide) (by decide) (by decide) (by decide)
      (by decide) (by decide) (by decide) (by decide) (by decide) (by decide)
      (by decide) (by decide) (by decide) (by decide),
    stopFrees_count s _ (by decide) (by decide) (by decide) (by decide) (by decide)
      (by decide) (by decide) (by decide) (by decide) (by decide) (by decide)
      (by decide) (by decide) (by decide) (by decide),
    stopFrees_count s _ (by decide) (by decide) (by decide) (by decide) (by decide)
      (by decide) (by decide) (by decide) (by decide) (by decide) (by decide)
      (by decide) (by decide) (by decide) (by decide)⟩
  · intro h
    show (stopFrees s).d_LUT_uc = none
    unfold stopFrees
    cases hB : s.UseAberrationCorr_b <;> cases hC : s.UseLUTPol_b <;> simp [h, hB, hC]
  · intro h
    show (stopFrees s).d_AberrationCorr_f = none
    unfold stopFrees
    cases hA : s.ApplyLUT_b <;> cases hC : s.UseLUTPol_b <;> simp [h, hA, hC]
  · intro h
    show (stopFrees s).d_LUTPolCoeff_f = none
    unfold stopFrees
    cases hA : s.ApplyLUT_b <;> cases hB : s.UseAberrationCorr_b <;> simp [h, hA, hB]
  · intro h
    show (stopFrees s).d_LUT_uc = s.d_LUT_uc
    unfold stopFrees
    cases hB : s.UseAberrationCorr_b <;> cases hC : s.UseLUTPol_b <;> simp [h, hB, hC]
  · intro h
    show (stopFrees s).d_AberrationCorr_f = s.d_AberrationCorr_f
    unfold stopFrees
    cases hA : s.ApplyLUT_b <;> cases hC : s.UseLUTPol_b <;> simp [h, hA, hC]
  · intro h
    show (stopFrees s).d_LUTPolCoeff_f = s.d_LUTPolCoeff_f
    unfold stopFrees
    cases hA : s.ApplyLUT_b <;> cases hB : s.UseAberrationCorr_b <;> simp [h, hA, hB]

/-- C3 counterexample: start a session with hardware output on PCIe
hardware (InitalizeSLM returns 0): the 256-entry LUT buffer is allocated
but ApplyLUT_b is false, so after stopCUDAandSLM the LUT pointer is still
non-NULL — the optional-correction pointers are not all reset to absent. -/
theorem stopCUDAandSLM_LUT_pointer_left :
    (stopCUDAandSLM testSessionLUT).d_LUT_uc.isSome = true
    ∧ testSessionLUT.ApplyLUT_b = false := by
  refine ⟨by decide, by decide⟩

/-- C3 witness: concrete instantiation of the release-behavior theorem. -/
theorem stopCUDAandSLM_release_witness :
    (stopCUDAandSLM testSessionLUT).live = []
    ∧ (stopCUDAandSLM testSessionLUT).d_LUT_uc = testSessionLUT.d_LUT_uc :=
  ⟨(stopCUDAandSLM_release testSessionLUT).1,
    (stopCUDAandSLM_release testSessionLUT).2.2.2.2.1 (by decide)⟩

/-- C9: GetAmps processes its point list in sequential batches of at most
512 points, each written to its own disjoint slice of the output; for a
list of 2*512+1 = 1025 points the returned amplitudes are exactly the
concatenation of the evaluator's results on the three sub-batches of
sizes 512, 512 and 1. -/
theorem GetAmps_batched_concat (ampAt : ℚ × ℚ × ℚ → List Nat → ℚ) (s : SLMState)
    (x y z : List ℚ) (hpat : List Nat) (dw : Nat) (jq : ℚ)
    (hx : 1025 ≤ x.length) (hy : 1025 ≤ y.length) (hz : 1025 ≤ z.length) :
    (GetAmps ampAt s x y z hpat 1025 dw jq).1
      = checkAmplitudesRun ampAt (copyN hpat s.d_pSLM_uc s.N_pixels)
          (((x.take 1025).zip ((y.take 1025).zip (z.take 1025))).take 512)
        ++ checkAmplitudesRun ampAt (copyN hpat s.d_pSLM_uc s.N_pixels)
          ((((x.take 1025).zip ((y.take 1025).zip (z.take 1025))).drop 512).take 512)
        ++ checkAmplitudesRun ampAt (copyN hpat s.d_pSLM_uc s.N_pixels)
          (((x.take 1025).zip ((y.take 1025).zip (z.take 1025))).drop 1024)
    ∧ (((x.take 1025).zip ((y.take 1025).zip (z.take 1025))).take 512).length = 512
    ∧ ((((x.take 1025).zip ((y.take 1025).zip (z.take 1025))).drop 512).take 512).length = 512
    ∧ (((x.take 1025).zip ((y.take 1025).zip (z.take 1025))).drop 1024).length = 1 := by
  have hlp : ((x.take 1025).zip ((y.take 1025).zip (z.take 1025))).length = 1025 := by
    simp
    omega
  refine ⟨?_, by simp [hlp], by simp [hlp], by simp [hlp]⟩
  have hloop := getAmpsLoop_eq ampAt (copyN hpat s.d_pSLM_uc s.N_pixels)
    ((x.take 1025).zip ((y.take 1025).zip (z.take 1025))) 1025 0
    (List.replicate 1025 jq) (by rw [hlp]) (by rw [List.length_replicate, hlp])
  show (getAmpsLoop ampAt (copyN hpat s.d_pSLM_uc s.N_pixels)
      ((x.take 1025).zip ((y.take 1025).zip (z.take 1025))) 1025 0
      (List.replicate 1025 jq)).take 1025 = _
  rw [hloop]
  simp only [List.take_zero, List.nil_append, List.drop_zero]
  rw [List.take_of_length_le (by rw [checkAmplitudesRun_length, hlp])]
  rw [← checkAmplitudesRun_split ampAt (copyN hpat s.d_pSLM_uc s.N_pixels)
    ((x.take 1025).zip ((y.take 1025).zip (z.take 1025))) 512]
  rw [List.append_assoc]
  congr 1
  rw [← checkAmplitudesRun_split ampAt (copyN hpat s.d_pSLM_uc s.N_pixels)
    (((x.take 1025).zip ((y.take 1025).zip (z.take 1025))).drop 512) 512]
  congr 2
  rw [List.drop_drop]

/-- C9 witness: concrete instantiation of the batching theorem on 1025
replicated points. -/
theorem GetAmps_batched_concat_witness :
    1025 ≤ (List.replicate 1025 (0 : ℚ)).length
    ∧ ((((List.replicate 1025 (0 : ℚ)).take 1025).zip
        (((List.replicate 1025 (0 : ℚ)).take 1025).zip
          ((List.replicate 1025 (0 : ℚ)).take 1025))).take 512).length = 512 :=
  ⟨by simp,
    (GetAmps_batched_concat (fun _ _ => 0) (initialState 3) (List.replicate 1025 0)
      (List.replicate 1025 0) (List.replicate 1025 0) [] 4 0 (by simp) (by simp)
      (by simp)).2.1⟩

theorem aberrStep_keeps_N (s : SLMState) (hAb : List ℚ) (okAb : Bool) (jq : ℚ) :
    (aberrStep s hAb okAb jq).N_LUTPolCoeff = s.N_LUTPolCoeff := by
  unfold aberrStep
  cases hA : s.UseAberrationCorr_b <;> cases hopt : s.d_AberrationCorr_f <;>
    simp [hA, hopt]

theorem aberrStep_keeps_UseLUTPol (s : SLMState) (hAb : List ℚ) (okAb : Bool) (jq : ℚ) :
    (aberrStep s hAb okAb jq).UseLUTPol_b = s.UseLUTPol_b := by
  unfold aberrStep
  cases hA : s.UseAberrationCorr_b <;> cases hopt : s.d_AberrationCorr_f <;>
    simp [hA, hopt]

theorem aberrStep_keeps_LUTPol_ptr (s : SLMState) (hAb : List ℚ) (okAb : Bool) (jq : ℚ) :
    (aberrStep s hAb okAb jq).d_LUTPolCoeff_f = s.d_LUTPolCoeff_f := by
  unfold aberrStep
  cases hA : s.UseAberrationCorr_b <;> cases hopt : s.d_AberrationCorr_f <;>
    simp [hA, hopt]

theorem aberrStep_keeps_N_pixels (s : SLMState) (hAb : List ℚ) (okAb : Bool) (jq : ℚ) :
    (aberrStep s hAb okAb jq).N_pixels = s.N_pixels := by
  unfold aberrStep
  cases hA : s.UseAberrationCorr_b <;> cases hopt : s.d_AberrationCorr_f <;>
    simp [hA, hopt]

theorem polStep_keeps_N (s : SLMState) (hPol : List ℚ) (okPol : Bool) (jq : ℚ) :
    (polStep s hPol okPol jq).N_LUTPolCoeff = s.N_LUTPolCoeff := by
  unfold polStep
  cases hP : s.UseLUTPol_b <;> cases hopt : s.d_LUTPolCoeff_f <;> simp [hP, hopt]

theorem polStep_keeps_UseAberr (s : SLMState) (hPol : List ℚ) (okPol : Bool) (jq : ℚ) :
    (polStep s hPol okPol jq).UseAberrationCorr_b = s.UseAberrationCorr_b := by
  unfold polStep
  cases hP : s.UseLUTPol_b <;> cases hopt : s.d_LUTPolCoeff_f <;> simp [hP, hopt]

theorem polStep_keeps_Aberr_ptr (s : SLMState) (hPol : List ℚ) (okPol : Bool) (jq : ℚ) :
    (polStep s hPol okPol jq).d_AberrationCorr_f = s.d_AberrationCorr_f := by
  unfold polStep
  cases hP : s.UseLUTPol_b <;> cases hopt : s.d_LUTPolCoeff_f <;> simp [hP, hopt]

theorem polStep_flag_false (s : SLMState) (hPol : List ℚ) (okPol : Bool) (jq : ℚ)
    (h : s.UseLUTPol_b = false) :
    (polStep s hPol okPol jq).UseLUTPol_b = false := by
  unfold polStep
  cases hopt : s.d_LUTPolCoeff_f <;> simp [h, hopt]

theorem polStep_count_aberr (s : SLMState) (hPol : List ℚ) (okPol : Bool) (jq : ℚ) :
    (polStep s hPol okPol jq).live.count BufTag.aberr = s.live.count BufTag.aberr := by
  unfold polStep
  cases hP : s.UseLUTPol_b <;> cases hopt : s.d_LUTPolCoeff_f <;>
    simp [hP, hopt,
      List.count_cons_of_ne (show BufTag.aberr ≠ BufTag.lutPol by decide),
      List.count_erase_of_ne (show BufTag.aberr ≠ BufTag.lutPol by decide)]

theorem aberrStep_flag_buffer (s : SLMState) (hAb : List ℚ) (okAb : Bool) (jq : ℚ) :
    (aberrStep s hAb okAb jq).UseAberrationCorr_b = true →
    (aberrStep s hAb okAb jq).d_AberrationCorr_f.isSome = true := by
  unfold aberrStep
  cases hA : s.UseAberrationCorr_b <;> cases hopt : s.d_AberrationCorr_f <;>
    simp [hA, hopt]

theorem polStep_flag_buffer (s : SLMState) (hPol : List ℚ) (okPol : Bool) (jq : ℚ) :
    (polStep s hPol okPol jq).UseLUTPol_b = true →
    (polStep s hPol okPol jq).d_LUTPolCoeff_f.isSome = true := by
  unfold polStep
  cases hP : s.UseLUTPol_b <;> cases hopt : s.d_LUTPolCoeff_f <;> simp [hP, hopt]

theorem Corrections_N_in (s : SLMState) (uAb : Bool) (hAb : List ℚ) (lutF uPol : Bool)
    (ord : Int) (hPol : List ℚ) (okAb okPol : Bool) (jq : ℚ)
    (hin : 3 ≤ ord ∧ ord ≤ 7) :
    (Corrections s uAb hAb lutF uPol ord hPol okAb okPol jq).1.N_LUTPolCoeff
      = [20, 35, 56, 84, 120].getD (ord - 3).toNat 0 := by
  simp only [Corrections]
  rw [if_pos hin]
  rw [polStep_keeps_N, aberrStep_keeps_N]

theorem Corrections_UseLUTPol_out (s : SLMState) (uAb : Bool) (hAb : List ℚ)
    (lutF uPol : Bool) (ord : Int) (hPol : List ℚ) (okAb okPol : Bool) (jq : ℚ)
    (hout : ¬ (3 ≤ ord ∧ ord ≤ 7)) :
    (Corrections s uAb hAb lutF uPol ord hPol okAb okPol jq).1.UseLUTPol_b = false := by
  simp only [Corrections]
  rw [if_neg hout]
  apply polStep_flag_false
  rw [aberrStep_keeps_UseLUTPol]

theorem Corrections_status_out (s : SLMState) (uAb : Bool) (hAb : List ℚ)
    (lutF uPol : Bool) (ord : Int) (hPol : List ℚ) (okAb okPol : Bool) (jq : ℚ)
    (hout : ¬ (3 ≤ ord ∧ ord ≤ 7)) (hok : okAb = true) :
    (Corrections s uAb hAb lutF uPol ord hPol okAb okPol jq).2 = 0 := by
  simp only [Corrections]
  rw [if_neg hout]
  subst hok
  simp

/-- C6: Corrections accepts polynomial correction only for orders 3 through
7, setting the coefficient count from the table 20/35/56/84/120; an
out-of-range order forces the polynomial feature off regardless of the
caller's request, and this downgrade alone produces no error status
(status 0 when no performed upload fails). -/
theorem Corrections_pol_order (s : SLMState) (uAb : Bool) (hAb : List ℚ)
    (lutF uPol : Bool) (ord : Int) (hPol : List ℚ) (okAb okPol : Bool) (jq : ℚ) :
    (ord = 3 → (Corrections s uAb hAb lutF uPol ord hPol okAb okPol jq).1.N_LUTPolCoeff = 20)
    ∧ (ord = 4 → (Corrections s uAb hAb lutF uPol ord hPol okAb okPol jq).1.N_LUTPolCoeff = 35)
    ∧ (ord = 5 → (Corrections s uAb hAb lutF uPol ord hPol okAb okPol jq).1.N_LUTPolCoeff = 56)
    ∧ (ord = 6 → (Corrections s uAb hAb lutF uPol ord hPol okAb okPol jq).1.N_LUTPolCoeff = 84)
    ∧ (ord = 7 → (Corrections s uAb hAb lutF uPol ord hPol okAb okPol jq).1.N_LUTPolCoeff = 120)
    ∧ (¬ (3 ≤ ord ∧ ord ≤ 7) →
        (Corrections s uAb hAb lutF uPol ord hPol okAb okPol jq).1.UseLUTPol_b = false)
    ∧ (¬ (3 ≤ ord ∧ ord ≤ 7) → okAb = true →
        (Corrections s uAb hAb lutF uPol ord hPol okAb okPol jq).2 = 0) := by
  refine ⟨fun h => ?_, fun h => ?_, fun h => ?_, fun h => ?_, fun h => ?_,
    fun hout => Corrections_UseLUTPol_out s uAb hAb lutF uPol ord hPol okAb okPol jq hout,
    fun hout hok => Corrections_status_out s uAb hAb lutF uPol ord hPol okAb okPol jq hout hok⟩
  · subst h
    rw [Corrections_N_in s uAb hAb lutF uPol 3 hPol okAb okPol jq (by decide)]
    decide
  · subst h
    rw [Corrections_N_in s uAb hAb lutF uPol 4 hPol okAb okPol jq (by decide)]
    decide
  · subst h
    rw [Corrections_N_in s uAb hAb lutF uPol 5 hPol okAb okPol jq (by decide)]
    decide
  · subst h
    rw [Corrections_N_in s uAb hAb lutF uPol 6 hPol okAb okPol jq (by decide)]
    decide
  · subst h
    rw [Corrections_N_in s uAb hAb lutF uPol 7 hPol okAb okPol jq (by decide)]
    decide

/-- C6 witness: order 9 is rejected: the polynomial feature is forced off
and the call still returns status 0. -/
theorem Corrections_pol_order_witness :
    ¬ ((3 : Int) ≤ 9 ∧ (9 : Int) ≤ 7)
    ∧ (Corrections (initialState 3) false [] false true 9 [] true true 0).1.UseLUTPol_b = false
    ∧ (Corrections (initialState 3) false [] false true 9 [] true true 0).2 = 0 :=
  ⟨by decide,
    (Corrections_pol_order (initialState 3) false [] false true 9 [] true true
      0).2.2.2.2.2.1 (by decide),
    (Corrections_pol_order (initialState 3) false [] false true 9 [] true true
      0).2.2.2.2.2.2 (by decide) rfl⟩

/-- C7: for every Corrections call that enables the aberration map, the
device buffer is allocated only when not already resident (the live count
for the aberration buffer grows only in that case) and the host map is
then uploaded; for every call that disables it, any resident buffer is
freed and the pointer reset to NULL. -/
theorem Corrections_aberration_lifecycle (s : SLMState) (hAb : List ℚ)
    (lutF uPol : Bool) (ord : Int) (hPol : List ℚ) (okAb okPol : Bool) (jq : ℚ) :
    (s.d_AberrationCorr_f = none →
        (Corrections s true hAb lutF uPol ord hPol okAb okPol jq).1.live.count BufTag.aberr
          = s.live.count BufTag.aberr + 1
      ∧ (okAb = true →
          (Corrections s true hAb lutF uPol ord hPol okAb okPol jq).1.d_AberrationCorr_f
            = some (copyN hAb (List.replicate s.N_pixels jq) s.N_pixels)))
    ∧ (∀ b, s.d_AberrationCorr_f = some b →
        (Corrections s true hAb lutF uPol ord hPol okAb okPol jq).1.live.count BufTag.aberr
          = s.live.count BufTag.aberr
      ∧ (okAb = true →
          (Corrections s true hAb lutF uPol ord hPol okAb okPol jq).1.d_AberrationCorr_f
            = some (copyN hAb b s.N_pixels)))
    ∧ ((Corrections s false hAb lutF uPol ord hPol okAb okPol jq).1.d_AberrationCorr_f = none)
    ∧ (∀ b, s.d_AberrationCorr_f = some b →
        (Corrections s false hAb lutF uPol ord hPol okAb okPol jq).1.live.count BufTag.aberr
          = s.live.count BufTag.aberr - 1)
    ∧ (s.d_AberrationCorr_f = none →
        (Corrections s false hAb lutF uPol ord hPol okAb okPol jq).1.live.count BufTag.aberr
          = s.live.count BufTag.aberr) := by
  refine ⟨fun hnone => ⟨?_, fun hok => ?_⟩, fun b hb => ⟨?_, fun hok => ?_⟩, ?_,
    fun b hb => ?_, fun hnone => ?_⟩
  · simp only [Corrections]
    split <;> (rw [polStep_count_aberr]; unfold aberrStep; simp [hnone])
  · subst hok
    simp only [Corrections]
    split <;> (rw [polStep_keeps_Aberr_ptr]; unfold aberrStep; simp [hnone])
  · simp only [Corrections]
    split <;> (rw [polStep_count_aberr]; unfold aberrStep; simp [hb])
  · subst hok
    simp only [Corrections]
    split <;> (rw [polStep_keeps_Aberr_ptr]; unfold aberrStep; simp [hb])
  · simp only [Corrections]
    split
    all_goals rw [polStep_keeps_Aberr_ptr]
    all_goals unfold aberrStep
    all_goals cases hopt : s.d_AberrationCorr_f
    all_goals simp [hopt]
  · simp only [Corrections]
    split <;> (rw [polStep_count_aberr]; unfold aberrStep; simp [hb])
  · simp only [Corrections]
    split <;> (rw [polStep_count_aberr]; unfold aberrStep; simp [hnone])

/-- C7 witness: enabling the aberration map on a fresh session state
allocates the buffer (live count grows by one). -/
theorem Corrections_aberration_lifecycle_witness :
    (initialState 3).d_AberrationCorr_f = none
    ∧ (Corrections (initialState 3) true [] false false 0 [] true true
        0).1.live.count BufTag.aberr
      = (initialState 3).live.count BufTag.aberr + 1 :=
  ⟨rfl,
    ((Corrections_aberration_lifecycle (initialState 3) [] false false 0 [] true true
      0).1 rfl).1⟩

/-- C10: after any Corrections call, an enabled aberration flag implies the
aberration buffer pointer is non-NULL and an enabled polynomial flag
implies the coefficient-table pointer is non-NULL; the converse fails:
after an upload failure the flag is cleared while the buffer stays
allocated, as the concrete run in the last two conjuncts shows. -/
theorem Corrections_flag_implies_buffer (s : SLMState) (uAb : Bool) (hAb : List ℚ)
    (lutF uPol : Bool) (ord : Int) (hPol : List ℚ) (okAb okPol : Bool) (jq : ℚ) :
    ((Corrections s uAb hAb lutF uPol ord hPol okAb okPol jq).1.UseAberrationCorr_b = true →
      (Corrections s uAb hAb lutF uPol ord hPol okAb okPol jq).1.d_AberrationCorr_f.isSome = true)
    ∧ ((Corrections s uAb hAb lutF uPol ord hPol okAb okPol jq).1.UseLUTPol_b = true →
      (Corrections s uAb hAb lutF uPol ord hPol okAb okPol jq).1.d_LUTPolCoeff_f.isSome = true)
    ∧ (Corrections (initialState 3) false [] false true 3 (List.replicate 20 0) true
        false 0).1.UseLUTPol_b = false
    ∧ (Corrections (initialState 3) false [] false true 3 (List.replicate 20 0) true
        false 0).1.d_LUTPolCoeff_f.isSome = true := by
  refine ⟨?_, ?_, by decide, by decide⟩
  · intro h
    simp only [Corrections] at h ⊢
    by_cases hin : (3 : Int) ≤ ord ∧ ord ≤ 7
    · rw [if_pos hin] at h ⊢
      rw [polStep_keeps_Aberr_ptr]
      rw [polStep_keeps_UseAberr] at h
      exact aberrStep_flag_buffer _ hAb okAb jq h
    · rw [if_neg hin] at h ⊢
      rw [polStep_keeps_Aberr_ptr]
      rw [polStep_keeps_UseAberr] at h
      exact aberrStep_flag_buffer _ hAb okAb jq h
  · intro h
    simp only [Corrections] at h ⊢
    by_cases hin : (3 : Int) ≤ ord ∧ ord ≤ 7
    · rw [if_pos hin] at h ⊢
      exact polStep_flag_buffer _ hPol okPol jq h
    · rw [if_neg hin] at h ⊢
      exact polStep_flag_buffer _ hPol okPol jq h

/-- C10 witness: concrete instantiation of the flag/buffer invariant. -/
theorem Corrections_flag_implies_buffer_witness :
    (Corrections (initialState 3) true [] false true 3 (List.replicate 20 0) true true
      0).1.UseAberrationCorr_b = true
    ∧ (Corrections (initialState 3) true [] false true 3 (List.replicate 20 0) true true
      0).1.d_AberrationCorr_f.isSome = true :=
  ⟨by decide,
    (Corrections_flag_implies_buffer (initialState 3) true [] false true 3
      (List.replicate 20 0) true true 0).1 (by decide)⟩
